import Mathlib

/-!
Verification of the adaptive request-timeout controller `PortfolioBrain`
from `src/algo.py` (Jacobson/Karn timeout estimation with clamping,
failure backoff and idle soft decay).

The Python class is shallowly embedded as a state record over ℚ together
with pure transition functions.  Wall-clock time (`time.time()`) is made
explicit: every operation receives the current time `now : ℚ` as an
argument.  Operations that return a value in Python return a
`state × value` pair here.
-/

/-- `TIMEOUT_MIN = 1.0` from `src/algo.py`. -/
def TIMEOUT_MIN : ℚ := 1

/-- `TIMEOUT_MAX = 10.0` from `src/algo.py`. -/
def TIMEOUT_MAX : ℚ := 10

/-- `DEFAULT_TIMEOUT = 3.0` from `src/algo.py`. -/
def DEFAULT_TIMEOUT : ℚ := 3

/-- `MEMORY_TTL = 600` from `src/algo.py` (idle reset threshold, seconds). -/
def MEMORY_TTL : ℚ := 600

/-- The mutable state of `PortfolioBrain`: `srtt`, `rttvar`,
`current_timeout` and `last_request_time` (the lock is concurrency-only
and has no sequential semantics). -/
structure PortfolioBrain where
  srtt : ℚ
  rttvar : ℚ
  current_timeout : ℚ
  last_request_time : ℚ
deriving DecidableEq

/-- `PortfolioBrain._calc_timeout_unsafe`:
`rto = srtt + 4 * rttvar`, then `max(TIMEOUT_MIN, min(TIMEOUT_MAX, rto))`. -/
def calc_timeout_unsafe (srtt rttvar : ℚ) : ℚ :=
  max TIMEOUT_MIN (min TIMEOUT_MAX (srtt + 4 * rttvar))

/-- `PortfolioBrain.__init__` at construction time `t0`:
`srtt = DEFAULT_TIMEOUT`, `rttvar = 0.5`,
`current_timeout = _calc_timeout_unsafe()`, `last_request_time = t0`. -/
def PortfolioBrain.init (t0 : ℚ) : PortfolioBrain :=
  { srtt := DEFAULT_TIMEOUT
    rttvar := 1/2
    current_timeout := calc_timeout_unsafe DEFAULT_TIMEOUT (1/2)
    last_request_time := t0 }

/-- `PortfolioBrain.get_timeout` called at time `now`.
If `now - last_request_time > MEMORY_TTL` the soft decay runs:
`rttvar = max(rttvar * 2, 1.0)`, `current_timeout` is recomputed and
`last_request_time` is refreshed to `now`; otherwise nothing is mutated.
The returned value is the (possibly recomputed) `current_timeout`. -/
def PortfolioBrain.get_timeout (s : PortfolioBrain) (now : ℚ) :
    PortfolioBrain × ℚ :=
  if now - s.last_request_time > MEMORY_TTL then
    ({ s with
        rttvar := max (s.rttvar * 2) 1
        current_timeout := calc_timeout_unsafe s.srtt (max (s.rttvar * 2) 1)
        last_request_time := now },
      calc_timeout_unsafe s.srtt (max (s.rttvar * 2) 1))
  else
    (s, s.current_timeout)

/-- `PortfolioBrain.update(observed_latency, success)` called at time `now`.
Always sets `last_request_time = now`.  On failure (`not success`):
`current_timeout = min(TIMEOUT_MAX, current_timeout * 2)` and
`rttvar += 0.5`, `srtt` untouched.  On success, with
`diff = observed_latency - srtt`: `srtt += 0.125 * diff`,
`rttvar += 0.25 * (abs(diff) - rttvar)`, then
`current_timeout = _calc_timeout_unsafe()` on the new fields. -/
def PortfolioBrain.update (s : PortfolioBrain) (now observed_latency : ℚ)
    (success : Bool) : PortfolioBrain :=
  if !success then
    { s with
        last_request_time := now
        current_timeout := min TIMEOUT_MAX (s.current_timeout * 2)
        rttvar := s.rttvar + 1/2 }
  else
    { srtt := s.srtt + 1/8 * (observed_latency - s.srtt)
      rttvar := s.rttvar + 1/4 * (|observed_latency - s.srtt| - s.rttvar)
      current_timeout := calc_timeout_unsafe
        (s.srtt + 1/8 * (observed_latency - s.srtt))
        (s.rttvar + 1/4 * (|observed_latency - s.srtt| - s.rttvar))
      last_request_time := now }

/-- Python's `round` (banker's rounding, half to even) on an exact rational. -/
def round_half_even (x : ℚ) : ℤ :=
  if x - Int.floor x < 1/2 then Int.floor x
  else if 1/2 < x - Int.floor x then Int.floor x + 1
  else if Int.floor x % 2 = 0 then Int.floor x else Int.floor x + 1

/-- Python's `round(x, ndigits)` on an exact rational. -/
def py_round (ndigits : ℕ) (x : ℚ) : ℚ :=
  (round_half_even (x * 10 ^ ndigits) : ℚ) / 10 ^ ndigits

/-- `PortfolioBrain.get_stats` called at time `now`: returns the state it
was called on (no field is assigned) together with the dict values
`srtt`, `rttvar`, `timeout` (rounded to 3 digits) and `idle_sec`
(rounded to 1 digit). -/
def PortfolioBrain.get_stats (s : PortfolioBrain) (now : ℚ) :
    PortfolioBrain × (ℚ × ℚ × ℚ × ℚ) :=
  (s, (py_round 3 s.srtt, py_round 3 s.rttvar, py_round 3 s.current_timeout,
       py_round 1 (now - s.last_request_time)))

/-- States reachable from construction by any sequence of `get_timeout`
and `update` calls, with arbitrary call times and latencies. -/
inductive Reachable : PortfolioBrain → Prop
  | init (t0 : ℚ) : Reachable (PortfolioBrain.init t0)
  | get_timeout {s : PortfolioBrain} (now : ℚ) :
      Reachable s → Reachable (s.get_timeout now).1
  | update {s : PortfolioBrain} (now lat : ℚ) (success : Bool) :
      Reachable s → Reachable (s.update now lat success)

/-- States reachable when every `update` is fed a nonnegative latency. -/
inductive ReachableNN : PortfolioBrain → Prop
  | init (t0 : ℚ) : ReachableNN (PortfolioBrain.init t0)
  | get_timeout {s : PortfolioBrain} (now : ℚ) :
      ReachableNN s → ReachableNN (s.get_timeout now).1
  | update {s : PortfolioBrain} (now lat : ℚ) (success : Bool) :
      0 ≤ lat → ReachableNN s → ReachableNN (s.update now lat success)

theorem reachable_of_reachableNN {s : PortfolioBrain} (h : ReachableNN s) :
    Reachable s := by
  induction h with
  | init t0 => exact Reachable.init t0
  | get_timeout now _ ih => exact Reachable.get_timeout now ih
  | update now lat success _ _ ih => exact Reachable.update now lat success ih

theorem calc_timeout_unsafe_bounds (a b : ℚ) :
    TIMEOUT_MIN ≤ calc_timeout_unsafe a b ∧
      calc_timeout_unsafe a b ≤ TIMEOUT_MAX := by
  refine ⟨le_max_left _ _, max_le ?_ (min_le_left _ _)⟩
  norm_num [TIMEOUT_MIN, TIMEOUT_MAX]

/-- Invariant: in every reachable state `current_timeout` lies in
`[TIMEOUT_MIN, TIMEOUT_MAX]`. -/
theorem ct_bounds_of_reachable {s : PortfolioBrain} (h : Reachable s) :
    TIMEOUT_MIN ≤ s.current_timeout ∧ s.current_timeout ≤ TIMEOUT_MAX := by
  induction h with
  | init t0 => exact calc_timeout_unsafe_bounds _ _
  | get_timeout now _ ih =>
      simp only [PortfolioBrain.get_timeout]
      split
      · exact calc_timeout_unsafe_bounds _ _
      · exact ih
  | update now lat success _ ih =>
      simp only [PortfolioBrain.update]
      split
      · obtain ⟨h1, h2⟩ := ih
        simp only [TIMEOUT_MIN, TIMEOUT_MAX] at h1 h2 ⊢
        exact ⟨le_min (by norm_num) (by linarith), min_le_left _ _⟩
      · exact calc_timeout_unsafe_bounds _ _

/-- Invariant: in every reachable state `rttvar` is strictly positive. -/
theorem rttvar_pos_of_reachable {s : PortfolioBrain} (h : Reachable s) :
    0 < s.rttvar := by
  induction h with
  | init t0 => norm_num [PortfolioBrain.init]
  | get_timeout now _ ih =>
      simp only [PortfolioBrain.get_timeout]
      split
      · exact lt_of_lt_of_le one_pos (le_max_right _ _)
      · exact ih
  | @update t now lat success _ ih =>
      simp only [PortfolioBrain.update]
      split
      · linarith
      · have := abs_nonneg (lat - t.srtt)
        dsimp only
        linarith

/-- In both branches of `get_timeout` the returned value is the
`current_timeout` field of the state after the call. -/
theorem get_timeout_snd_eq (s : PortfolioBrain) (now : ℚ) :
    (s.get_timeout now).2 = (s.get_timeout now).1.current_timeout := by
  simp only [PortfolioBrain.get_timeout]
  split <;> rfl

theorem get_timeout_snd_bounds {s : PortfolioBrain} (h : Reachable s)
    (now : ℚ) :
    TIMEOUT_MIN ≤ (s.get_timeout now).2 ∧
      (s.get_timeout now).2 ≤ TIMEOUT_MAX := by
  rw [get_timeout_snd_eq]
  exact ct_bounds_of_reachable (Reachable.get_timeout now h)

/-- Claim C1: for every state reachable from construction by `get_timeout`
and `update` calls with nonnegative observed latencies, the value returned
by `get_timeout` lies in `[TIMEOUT_MIN, TIMEOUT_MAX] = [1, 10]`. -/
theorem C1_clamp_law {s : PortfolioBrain} (h : ReachableNN s) (now : ℚ) :
    TIMEOUT_MIN ≤ (s.get_timeout now).2 ∧
      (s.get_timeout now).2 ≤ TIMEOUT_MAX :=
  get_timeout_snd_bounds (reachable_of_reachableNN h) now

/-- Witness for C1 at the freshly constructed state. -/
theorem C1_clamp_law_witness :
    TIMEOUT_MIN ≤ ((PortfolioBrain.init 0).get_timeout 0).2 ∧
      ((PortfolioBrain.init 0).get_timeout 0).2 ≤ TIMEOUT_MAX :=
  C1_clamp_law (ReachableNN.init 0) 0

/-- Claim C2: for every state and `observed_latency ≥ 0`,
`update(observed_latency, true)` sets `srtt` to
`srtt + 0.125 * (observed_latency - srtt)` (old `srtt`), sets `rttvar` to
`rttvar + 0.25 * (abs(observed_latency - old srtt) - rttvar)`, and then
recomputes `current_timeout` as the clamp of
`new srtt + 4 * new rttvar` to `[TIMEOUT_MIN, TIMEOUT_MAX]`. -/
theorem C2_success_update (s : PortfolioBrain) (now observed_latency : ℚ)
    (_h : 0 ≤ observed_latency) :
    (s.update now observed_latency true).srtt
        = s.srtt + 1/8 * (observed_latency - s.srtt) ∧
    (s.update now observed_latency true).rttvar
        = s.rttvar + 1/4 * (|observed_latency - s.srtt| - s.rttvar) ∧
    (s.update now observed_latency true).current_timeout
        = max TIMEOUT_MIN (min TIMEOUT_MAX
            ((s.update now observed_latency true).srtt
              + 4 * (s.update now observed_latency true).rttvar)) := by
  refine ⟨rfl, rfl, ?_⟩
  simp only [PortfolioBrain.update, Bool.not_true, Bool.false_eq_true,
    if_false, calc_timeout_unsafe]

/-- Witness for C2: the successful update at the initial state with
latency 1. -/
theorem C2_success_update_witness :
    ((PortfolioBrain.init 0).update 0 1 true).srtt
        = (PortfolioBrain.init 0).srtt
            + 1/8 * (1 - (PortfolioBrain.init 0).srtt) ∧
    ((PortfolioBrain.init 0).update 0 1 true).rttvar
        = (PortfolioBrain.init 0).rttvar
            + 1/4 * (|1 - (PortfolioBrain.init 0).srtt|
                      - (PortfolioBrain.init 0).rttvar) ∧
    ((PortfolioBrain.init 0).update 0 1 true).current_timeout
        = max TIMEOUT_MIN (min TIMEOUT_MAX
            (((PortfolioBrain.init 0).update 0 1 true).srtt
              + 4 * ((PortfolioBrain.init 0).update 0 1 true).rttvar)) :=
  C2_success_update (PortfolioBrain.init 0) 0 1 (by norm_num)

/-- Claim C3: for every state and every `observed_latency`,
`update(observed_latency, false)` sets `current_timeout` to
`min(TIMEOUT_MAX, current_timeout * 2)`, adds `0.5` to `rttvar`, leaves
`srtt` unchanged, and does not incorporate the latency anywhere: the
resulting state does not depend on `observed_latency` at all. -/
theorem C3_failure_update (s : PortfolioBrain) (now observed_latency : ℚ) :
    (s.update now observed_latency false).current_timeout
        = min TIMEOUT_MAX (s.current_timeout * 2) ∧
    (s.update now observed_latency false).rttvar = s.rttvar + 1/2 ∧
    (s.update now observed_latency false).srtt = s.srtt ∧
    ∀ other_latency : ℚ,
      s.update now observed_latency false = s.update now other_latency false := by
  exact ⟨rfl, rfl, rfl, fun _ => rfl⟩

/-- Counterexample to claim C4 as stated: after construction and
`update(0.1, true)`, the internal `srtt` is exactly `2.6375 = 211/80`
(not close to `2.73`) and `rttvar` is exactly `1.1 = 11/10` (not close
to `0.425`). -/
theorem C4_counterexample :
    ((PortfolioBrain.init 0).update 1 (1/10) true).srtt = 211/80 ∧
    ¬ |((PortfolioBrain.init 0).update 1 (1/10) true).srtt - 273/100| < 1/20 ∧
    ((PortfolioBrain.init 0).update 1 (1/10) true).rttvar = 11/10 ∧
    ¬ |((PortfolioBrain.init 0).update 1 (1/10) true).rttvar - 425/1000| < 1/2 := by
  norm_num [PortfolioBrain.init, PortfolioBrain.update, calc_timeout_unsafe,
    TIMEOUT_MIN, TIMEOUT_MAX, DEFAULT_TIMEOUT, abs_eq_max_neg, max_def, min_def]

/-- Claim C4 (amended): with `min = 1`, `max = 10`, `default = 3`,
immediately after construction `get_timeout()` returns `5`
(`default + 4 * 0.5`); a following `update(0.1, true)` leaves internal
`srtt = 2.6375` and `rttvar = 1.1`; a subsequent `update(lat, false)` for
any latency sets `current_timeout = min(10, previous current_timeout * 2)`. -/
theorem C4_end_to_end (lat : ℚ) :
    ((PortfolioBrain.init 0).get_timeout 0).2 = 5 ∧
    ((PortfolioBrain.init 0).update 1 (1/10) true).srtt = 211/80 ∧
    ((PortfolioBrain.init 0).update 1 (1/10) true).rttvar = 11/10 ∧
    (((PortfolioBrain.init 0).update 1 (1/10) true).update 2 lat
        false).current_timeout
      = min TIMEOUT_MAX
          (((PortfolioBrain.init 0).update 1 (1/10) true).current_timeout
            * 2) := by
  refine ⟨?_, ?_, ?_, rfl⟩ <;>
    norm_num [PortfolioBrain.init, PortfolioBrain.get_timeout,
      PortfolioBrain.update, calc_timeout_unsafe, TIMEOUT_MIN, TIMEOUT_MAX,
      DEFAULT_TIMEOUT, MEMORY_TTL, abs_eq_max_neg, max_def, min_def]

/-- A reachable warm-up state for the idle-decay analysis:
two successful updates with latency 8. -/
def c5_warm : PortfolioBrain :=
  ((PortfolioBrain.init 0).update 1 8 true).update 2 8 true

/-- One successful update reporting exactly the current `srtt`, which
keeps `srtt` unchanged and shrinks `rttvar` by the factor `3/4`. -/
def c5_settle (s : PortfolioBrain) : PortfolioBrain :=
  s.update 3 s.srtt true

/-- The warm-up state after nine settling updates: `srtt = 267/64 > 4`
with a small `rttvar`. -/
def c5_pre : PortfolioBrain :=
  c5_settle (c5_settle (c5_settle (c5_settle (c5_settle (c5_settle
    (c5_settle (c5_settle (c5_settle c5_warm))))))))

/-- `c5_pre` followed by one failed update, which doubles
`current_timeout` without touching `srtt`. -/
def c5_failed : PortfolioBrain := c5_pre.update 4 0 false

/-- Counterexample to claim C5 as stated: `c5_failed` is reachable, an
idle `get_timeout` call on it triggers decay (idle `601 > 600`), yet the
call strictly decreases `current_timeout` (from `5102799/524288 ≈ 9.733`
down to `5012687/524288 ≈ 9.561`): after a failure backoff has inflated
`current_timeout` beyond the clamp of `srtt + 4 * rttvar`, recomputation
during decay can lower it. -/
theorem C5_counterexample :
    Reachable c5_failed ∧
    (605 : ℚ) - c5_failed.last_request_time > MEMORY_TTL ∧
    ((c5_failed.get_timeout 605).1).current_timeout
      < c5_failed.current_timeout := by
  refine ⟨?_, ?_, ?_⟩
  · simp only [c5_failed, c5_pre, c5_settle, c5_warm]
    exact Reachable.update _ _ _ (Reachable.update _ _ _ (Reachable.update _ _ _
      (Reachable.update _ _ _ (Reachable.update _ _ _ (Reachable.update _ _ _
      (Reachable.update _ _ _ (Reachable.update _ _ _ (Reachable.update _ _ _
      (Reachable.update _ _ _ (Reachable.update _ _ _ (Reachable.update _ _ _
      (Reachable.init 0))))))))))))
  · norm_num [c5_failed, c5_pre, c5_settle, c5_warm, PortfolioBrain.init,
      PortfolioBrain.update, calc_timeout_unsafe, TIMEOUT_MIN, TIMEOUT_MAX,
      DEFAULT_TIMEOUT, MEMORY_TTL, abs_eq_max_neg, max_def, min_def]
  · norm_num [c5_failed, c5_pre, c5_settle, c5_warm, PortfolioBrain.init,
      PortfolioBrain.update, PortfolioBrain.get_timeout, calc_timeout_unsafe,
      TIMEOUT_MIN, TIMEOUT_MAX, DEFAULT_TIMEOUT, MEMORY_TTL, abs_eq_max_neg,
      max_def, min_def]

/-- Claim C5 (amended): for every reachable state, a `get_timeout` call
whose idle time exceeds `MEMORY_TTL` sets `rttvar` to
`max(rttvar * 2, 1.0)`, strictly increasing it, and recomputes
`current_timeout` as the clamp of `srtt + 4 * new rttvar` (which, as the
counterexample shows, can be smaller than the previous
`current_timeout`). -/
theorem C5_idle_decay {s : PortfolioBrain} (h : Reachable s) (now : ℚ)
    (hidle : now - s.last_request_time > MEMORY_TTL) :
    ((s.get_timeout now).1).rttvar = max (s.rttvar * 2) 1 ∧
    s.rttvar < ((s.get_timeout now).1).rttvar ∧
    ((s.get_timeout now).1).current_timeout
      = calc_timeout_unsafe s.srtt (max (s.rttvar * 2) 1) := by
  have hv := rttvar_pos_of_reachable h
  refine ⟨?_, ?_, ?_⟩ <;> simp only [PortfolioBrain.get_timeout, if_pos hidle]
  exact lt_of_lt_of_le (by linarith) (le_max_left (s.rttvar * 2) 1)

/-- Witness for C5 (amended) at the freshly constructed state with an
idle call 601 seconds later. -/
theorem C5_idle_decay_witness :
    (((PortfolioBrain.init 0).get_timeout 601).1).rttvar
        = max ((PortfolioBrain.init 0).rttvar * 2) 1 ∧
    (PortfolioBrain.init 0).rttvar
        < (((PortfolioBrain.init 0).get_timeout 601).1).rttvar ∧
    (((PortfolioBrain.init 0).get_timeout 601).1).current_timeout
        = calc_timeout_unsafe (PortfolioBrain.init 0).srtt
            (max ((PortfolioBrain.init 0).rttvar * 2) 1) :=
  C5_idle_decay (Reachable.init 0) 601
    (by norm_num [PortfolioBrain.init, MEMORY_TTL])

/-- A `get_timeout` call whose idle time is within `MEMORY_TTL` returns
the stored `current_timeout` and mutates no field. -/
theorem get_timeout_no_decay (s : PortfolioBrain) (now : ℚ)
    (h : now - s.last_request_time ≤ MEMORY_TTL) :
    s.get_timeout now = (s, s.current_timeout) := by
  simp only [PortfolioBrain.get_timeout, if_neg (not_lt.mpr h)]

/-- Counterexample to claim C6 as stated: two consecutive `get_timeout`
calls at times 300 and 700 are separated by `400 < 600`, yet the second
call returns a different value (7 instead of 5) and mutates `rttvar`
(to 1 instead of 1/2), because idle time is measured from
`last_request_time` (still the construction time 0), which the first,
non-decaying call did not refresh. -/
theorem C6_counterexample :
    (700 : ℚ) - 300 < MEMORY_TTL ∧
    ((((PortfolioBrain.init 0).get_timeout 300).1).get_timeout 700).2
        ≠ ((PortfolioBrain.init 0).get_timeout 300).2 ∧
    ((((PortfolioBrain.init 0).get_timeout 300).1).get_timeout 700).1.rttvar
        ≠ (((PortfolioBrain.init 0).get_timeout 300).1).rttvar := by
  norm_num [PortfolioBrain.init, PortfolioBrain.get_timeout,
    calc_timeout_unsafe, TIMEOUT_MIN, TIMEOUT_MAX, DEFAULT_TIMEOUT,
    MEMORY_TTL, max_def, min_def]

/-- Claim C6 (amended): a `get_timeout` call whose idle time since
`last_request_time` is within `MEMORY_TTL` returns the stored value and
mutates no field; when decay does trigger, `last_request_time` is
refreshed to `now`, so a further `get_timeout` within `MEMORY_TTL` of the
decaying call returns the same value and mutates nothing (no
double-decay within one idle episode). -/
theorem C6_idle_idempotence (s : PortfolioBrain) (t1 t2 : ℚ)
    (hdec : t1 - s.last_request_time > MEMORY_TTL)
    (hsep : t2 - t1 ≤ MEMORY_TTL) :
    ((s.get_timeout t1).1).last_request_time = t1 ∧
    ((s.get_timeout t1).1).get_timeout t2
      = ((s.get_timeout t1).1, (s.get_timeout t1).2) := by
  have h1 : ((s.get_timeout t1).1).last_request_time = t1 := by
    simp only [PortfolioBrain.get_timeout, if_pos hdec]
  refine ⟨h1, ?_⟩
  rw [get_timeout_no_decay _ _ (by rw [h1]; exact hsep), get_timeout_snd_eq]

/-- Witness for C6 (amended): decay at time 601 from construction at 0,
second call at time 700. -/
theorem C6_idle_idempotence_witness :
    (((PortfolioBrain.init 0).get_timeout 601).1).last_request_time = 601 ∧
    (((PortfolioBrain.init 0).get_timeout 601).1).get_timeout 700
      = (((PortfolioBrain.init 0).get_timeout 601).1,
         ((PortfolioBrain.init 0).get_timeout 601).2) :=
  C6_idle_idempotence (PortfolioBrain.init 0) 601 700
    (by norm_num [PortfolioBrain.init, MEMORY_TTL])
    (by norm_num [MEMORY_TTL])

/-- Claim C7: for every reachable state, one `update(lat, false)` call
yields `current_timeout = min(TIMEOUT_MAX, old current_timeout * 2)`,
which is at least the old `current_timeout`, with equality exactly when
the old `current_timeout` already equals `TIMEOUT_MAX`. -/
theorem C7_penalty_monotonicity {s : PortfolioBrain} (h : Reachable s)
    (now lat : ℚ) :
    (s.update now lat false).current_timeout
        = min TIMEOUT_MAX (s.current_timeout * 2) ∧
    s.current_timeout ≤ (s.update now lat false).current_timeout ∧
    ((s.update now lat false).current_timeout = s.current_timeout
      ↔ s.current_timeout = TIMEOUT_MAX) := by
  obtain ⟨h1, h2⟩ := ct_bounds_of_reachable h
  simp only [TIMEOUT_MIN, TIMEOUT_MAX] at h1 h2
  refine ⟨rfl, ?_, ?_⟩
  · show s.current_timeout ≤ min TIMEOUT_MAX (s.current_timeout * 2)
    simp only [TIMEOUT_MAX]
    exact le_min (by linarith) (by linarith)
  · show min TIMEOUT_MAX (s.current_timeout * 2) = s.current_timeout ↔ _
    simp only [TIMEOUT_MAX]
    constructor
    · intro he
      rcases le_total (10 : ℚ) (s.current_timeout * 2) with hc | hc
      · rw [min_eq_left hc] at he
        linarith
      · rw [min_eq_right hc] at he
        linarith
    · intro he
      rw [he]
      norm_num

/-- Witness for C7 at the freshly constructed state
(`current_timeout = 5`, doubled and capped to 10). -/
theorem C7_penalty_monotonicity_witness :
    ((PortfolioBrain.init 0).update 0 0 false).current_timeout
        = min TIMEOUT_MAX ((PortfolioBrain.init 0).current_timeout * 2) ∧
    (PortfolioBrain.init 0).current_timeout
        ≤ ((PortfolioBrain.init 0).update 0 0 false).current_timeout ∧
    (((PortfolioBrain.init 0).update 0 0 false).current_timeout
        = (PortfolioBrain.init 0).current_timeout
      ↔ (PortfolioBrain.init 0).current_timeout = TIMEOUT_MAX) :=
  C7_penalty_monotonicity (Reachable.init 0) 0 0

/-- Counterexample to claim C8 as stated: a `get_timeout` call at time 5
on a brain constructed at time 0 does not record the call time —
`last_request_time` stays 0, because the non-decay branch of
`get_timeout` assigns nothing. -/
theorem C8_counterexample :
    (((PortfolioBrain.init 0).get_timeout 5).1).last_request_time ≠ 5 := by
  norm_num [PortfolioBrain.init, PortfolioBrain.get_timeout, MEMORY_TTL]

/-- Claim C8 (amended): `update` always sets `last_request_time` to the
call time (it is the first assignment in the source); `get_timeout` sets
it to the call time exactly when idle decay triggers and otherwise
leaves it unchanged; consequently, when call times are non-decreasing,
`last_request_time` is monotonically non-decreasing across calls. -/
theorem C8_last_activity (s : PortfolioBrain) (now lat : ℚ) (success : Bool)
    (h : s.last_request_time ≤ now) :
    (s.update now lat success).last_request_time = now ∧
    (now - s.last_request_time > MEMORY_TTL →
        ((s.get_timeout now).1).last_request_time = now) ∧
    (¬ now - s.last_request_time > MEMORY_TTL →
        ((s.get_timeout now).1).last_request_time = s.last_request_time) ∧
    s.last_request_time ≤ ((s.get_timeout now).1).last_request_time ∧
    s.last_request_time ≤ (s.update now lat success).last_request_time := by
  have hu : (s.update now lat success).last_request_time = now := by
    simp only [PortfolioBrain.update]
    split <;> rfl
  have hg : ∀ hd : now - s.last_request_time > MEMORY_TTL,
      ((s.get_timeout now).1).last_request_time = now := fun hd => by
    simp only [PortfolioBrain.get_timeout, if_pos hd]
  have hn : ∀ _ : ¬ now - s.last_request_time > MEMORY_TTL,
      ((s.get_timeout now).1).last_request_time = s.last_request_time :=
    fun hd => by simp only [PortfolioBrain.get_timeout, if_neg hd]
  refine ⟨hu, hg, hn, ?_, by rw [hu]; exact h⟩
  by_cases hd : now - s.last_request_time > MEMORY_TTL
  · rw [hg hd]
    exact h
  · rw [hn hd]

/-- Witness for C8 (amended) at the freshly constructed state with a
call one second later. -/
theorem C8_last_activity_witness :
    ((PortfolioBrain.init 0).update 1 0 true).last_request_time = 1 ∧
    ((1 : ℚ) - (PortfolioBrain.init 0).last_request_time > MEMORY_TTL →
        (((PortfolioBrain.init 0).get_timeout 1).1).last_request_time = 1) ∧
    (¬ (1 : ℚ) - (PortfolioBrain.init 0).last_request_time > MEMORY_TTL →
        (((PortfolioBrain.init 0).get_timeout 1).1).last_request_time
          = (PortfolioBrain.init 0).last_request_time) ∧
    (PortfolioBrain.init 0).last_request_time
        ≤ (((PortfolioBrain.init 0).get_timeout 1).1).last_request_time ∧
    (PortfolioBrain.init 0).last_request_time
        ≤ ((PortfolioBrain.init 0).update 1 0 true).last_request_time :=
  C8_last_activity (PortfolioBrain.init 0) 1 0 true
    (by norm_num [PortfolioBrain.init])

/-- Banker's rounding moves a rational by at most `1/2`. -/
theorem round_half_even_close (x : ℚ) :
    |(round_half_even x : ℚ) - x| ≤ 1/2 := by
  have h0 : ((Int.floor x : ℤ) : ℚ) ≤ x := Int.floor_le x
  have h1 : x < (Int.floor x : ℤ) + 1 := Int.lt_floor_add_one x
  unfold round_half_even
  split
  · rename_i hlt
    rw [abs_le]
    constructor <;> linarith
  · rename_i hge
    push_neg at hge
    split
    · rename_i hgt
      rw [abs_le]
      constructor <;> push_cast <;> linarith
    · rename_i hngt
      push_neg at hngt
      split <;> (rw [abs_le]; constructor <;> push_cast <;> linarith)

/-- `py_round ndigits` moves a rational by at most half of the last kept
digit. -/
theorem py_round_close (n : ℕ) (x : ℚ) :
    |py_round n x - x| ≤ 1 / (2 * 10 ^ n) := by
  have h := round_half_even_close (x * 10 ^ n)
  have hp : (0 : ℚ) < 10 ^ n := by positivity
  unfold py_round
  have key : (round_half_even (x * 10 ^ n) : ℚ) / 10 ^ n - x
      = ((round_half_even (x * 10 ^ n) : ℚ) - x * 10 ^ n) / 10 ^ n := by
    field_simp
    ring
  rw [key, abs_div, abs_of_pos hp]
  calc |(round_half_even (x * 10 ^ n) : ℚ) - x * 10 ^ n| / 10 ^ n
      ≤ (1/2) / 10 ^ n := (div_le_div_iff_of_pos_right hp).mpr h
    _ = 1 / (2 * 10 ^ n) := by ring

/-- Claim C9: `get_stats` (the snapshot) leaves all four fields of the
state unchanged, and the four values it returns are the rounded
`srtt`, `rttvar` and `current_timeout` (within `1/2000` of the exact
fields) and the rounded idle seconds (within `1/20` of
`now - last_request_time`). -/
theorem C9_snapshot_readonly (s : PortfolioBrain) (now : ℚ) :
    (s.get_stats now).1 = s ∧
    (s.get_stats now).2.1 = py_round 3 s.srtt ∧
    |(s.get_stats now).2.1 - s.srtt| ≤ 1/2000 ∧
    |(s.get_stats now).2.2.1 - s.rttvar| ≤ 1/2000 ∧
    |(s.get_stats now).2.2.2.1 - s.current_timeout| ≤ 1/2000 ∧
    |(s.get_stats now).2.2.2.2 - (now - s.last_request_time)| ≤ 1/20 := by
  refine ⟨rfl, rfl, ?_, ?_, ?_, ?_⟩
  · rw [show (1 : ℚ)/2000 = 1 / (2 * 10 ^ 3) from by norm_num]
    exact py_round_close 3 s.srtt
  · rw [show (1 : ℚ)/2000 = 1 / (2 * 10 ^ 3) from by norm_num]
    exact py_round_close 3 s.rttvar
  · rw [show (1 : ℚ)/2000 = 1 / (2 * 10 ^ 3) from by norm_num]
    exact py_round_close 3 s.current_timeout
  · rw [show (1 : ℚ)/20 = 1 / (2 * 10 ^ 1) from by norm_num]
    exact py_round_close 1 (now - s.last_request_time)

/-- Claim C10 (implicit): `update` never validates `observed_latency` —
a negative latency with `success = true` drives `srtt` negative (so the
`srtt > 0` invariant only holds under the nonnegative-latency
precondition) — and yet even in such states `get_timeout` still returns
a value inside `[TIMEOUT_MIN, TIMEOUT_MAX]`, because of the clamp. -/
theorem C10_no_input_validation :
    (∃ lat : ℚ, lat < 0 ∧
      ((PortfolioBrain.init 0).update 1 lat true).srtt < 0 ∧
      Reachable ((PortfolioBrain.init 0).update 1 lat true)) ∧
    ∀ s : PortfolioBrain, Reachable s → ∀ now : ℚ,
      TIMEOUT_MIN ≤ (s.get_timeout now).2 ∧
        (s.get_timeout now).2 ≤ TIMEOUT_MAX := by
  refine ⟨⟨-100, by norm_num, ?_,
      Reachable.update 1 (-100) true (Reachable.init 0)⟩,
    fun s hs now => get_timeout_snd_bounds hs now⟩
  norm_num [PortfolioBrain.init, PortfolioBrain.update, calc_timeout_unsafe,
    TIMEOUT_MIN, TIMEOUT_MAX, DEFAULT_TIMEOUT, abs_eq_max_neg, max_def,
    min_def]
